import Mathlib

/-!
Verification of `scripts/generate_benchmark_report.py`.

The script is a single class `BenchmarkAnalyzer` that (1) globs
`benchmark_*.json` files in a directory, (2) computes frame-time statistics
per record, (3) prints a per-scene report with a budget assessment, and
(4) writes a `benchmark_summary.json` file into the same directory.

Modelling conventions:
* Python floats are modelled as exact rationals (`ℚ`); `0.95`, `16.67`, …
  are the exact decimal values the literals denote.
* `int(x)` on a nonnegative float is truncation, i.e. `Nat.floor`.
* A JSON object with possibly-missing keys is a structure of `Option`
  fields; `dict.get(key, default)` is `Option.getD`.
* The filesystem is a listing: a list of named files, each either a
  well-formed record or malformed JSON with an error cause.  `glob.glob`
  filters the listing by the pattern, preserving listing order.
* Printing is modelled by returning the data that would be printed
  (error lines as strings; report blocks as structured items; numeric
  formatting such as `:.2f` is abstracted away inside a block).
-/

namespace BenchmarkReport

/-- The `metrics` object of a raw benchmark record.  Every key may be
absent (`none`), mirroring the Python access `metrics.get(key, default)`. -/
structure RawMetrics where
  frame_times : Option (List ℚ) := none
  gpu_culling_time_ms : Option ℚ := none
  batch_processing_time_ms : Option ℚ := none
  lod_update_time_ms : Option ℚ := none
  streaming_time_ms : Option ℚ := none
  visible_instances : Option ℚ := none
  culled_instances : Option ℚ := none
  batch_count : Option ℚ := none
  memory_usage_mb : Option ℚ := none
deriving DecidableEq

/-- A raw benchmark record as loaded from one input file: optional `scene`
and `metrics` keys, plus the `file` basename tag assigned by the loader. -/
structure RawResult where
  scene : Option String := none
  metrics : Option RawMetrics := none
  file : String := ""
deriving DecidableEq

/-- The analysis dictionary returned by `analyze_performance` in the
non-empty case (source lines 59-76). -/
structure Analysis where
  avg_frame_time_ms : ℚ
  min_frame_time_ms : ℚ
  max_frame_time_ms : ℚ
  p95_frame_time_ms : ℚ
  p99_frame_time_ms : ℚ
  avg_fps : ℚ
  min_fps : ℚ
  frame_count : ℕ
  gpu_culling_time_ms : ℚ
  batch_processing_time_ms : ℚ
  lod_update_time_ms : ℚ
  streaming_time_ms : ℚ
  visible_instances : ℚ
  culled_instances : ℚ
  batch_count : ℚ
  memory_usage_mb : ℚ
deriving DecidableEq

/-- Python `min(list)` on a non-empty list ( `0` on the empty list, which
is unreachable behind the non-emptiness guard in `analyze_performance`). -/
def listMin : List ℚ → ℚ
  | [] => 0
  | x :: xs => xs.foldl min x

/-- Python `max(list)` on a non-empty list ( `0` on the empty list, which
is unreachable behind the non-emptiness guard in `analyze_performance`). -/
def listMax : List ℚ → ℚ
  | [] => 0
  | x :: xs => xs.foldl max x

/-- The frame-time samples of a record: the `metrics` value of the record
with default empty mapping, then its `frame_times` value with default
empty list. -/
def frameTimes (result : RawResult) : List ℚ :=
  ((result.metrics.getD {}).frame_times.getD [])

/-- Python `int(n * p)` for a count `n` and a nonnegative percentile
fraction `p`: `int` truncates toward zero, which on a nonnegative value
is the floor. -/
def percentileIndex (n : ℕ) (p : ℚ) : ℕ :=
  Nat.floor ((n : ℚ) * p)

/-- The method `BenchmarkAnalyzer.analyze_performance` (source lines 34-76).
Returns `none` for the empty dictionary `{}` returned on empty/absent
`frame_times`; otherwise the statistics dictionary.  `sorted` is
`List.insertionSort`, `int(len * 0.95)` is `Nat.floor` of the exact
rational product, and list indexing is `getD` (the indices are proved
in-bounds below, so the default is never consulted). -/
def analyze_performance (result : RawResult) : Option Analysis :=
  let metrics := result.metrics.getD {}
  let frame_times := metrics.frame_times.getD []
  if frame_times = [] then none
  else
    let avg_frame_time := frame_times.sum / (frame_times.length : ℚ)
    let min_frame_time := listMin frame_times
    let max_frame_time := listMax frame_times
    let sorted_times := List.insertionSort (· ≤ ·) frame_times
    let p95_index := percentileIndex sorted_times.length (0.95 : ℚ)
    let p99_index := percentileIndex sorted_times.length (0.99 : ℚ)
    let p95_frame_time := sorted_times.getD p95_index 0
    let p99_frame_time := sorted_times.getD p99_index 0
    let avg_fps := if avg_frame_time > 0 then 1000 / avg_frame_time else 0
    let min_fps := if max_frame_time > 0 then 1000 / max_frame_time else 0
    some
      { avg_frame_time_ms := avg_frame_time
        min_frame_time_ms := min_frame_time
        max_frame_time_ms := max_frame_time
        p95_frame_time_ms := p95_frame_time
        p99_frame_time_ms := p99_frame_time
        avg_fps := avg_fps
        min_fps := min_fps
        frame_count := frame_times.length
        gpu_culling_time_ms := metrics.gpu_culling_time_ms.getD 0
        batch_processing_time_ms := metrics.batch_processing_time_ms.getD 0
        lod_update_time_ms := metrics.lod_update_time_ms.getD 0
        streaming_time_ms := metrics.streaming_time_ms.getD 0
        visible_instances := metrics.visible_instances.getD 0
        culled_instances := metrics.culled_instances.getD 0
        batch_count := metrics.batch_count.getD 0
        memory_usage_mb := metrics.memory_usage_mb.getD 0 }

/-- The fixed `targets` dictionary defined in `generate_report`
(source lines 91-102). -/
structure Targets where
  target_fps : ℚ
  warning_fps : ℚ
  critical_fps : ℚ
  target_frame_time_ms : ℚ
  warning_frame_time_ms : ℚ
  critical_frame_time_ms : ℚ
  gpu_culling_budget_ms : ℚ
  batch_processing_budget_ms : ℚ
  lod_update_budget_ms : ℚ
  streaming_budget_ms : ℚ
deriving DecidableEq

def targets : Targets :=
  { target_fps := 60
    warning_fps := 30
    critical_fps := 15
    target_frame_time_ms := (16.67 : ℚ)
    warning_frame_time_ms := (33.33 : ℚ)
    critical_frame_time_ms := (66.67 : ℚ)
    gpu_culling_budget_ms := (0.25 : ℚ)
    batch_processing_budget_ms := (2.5 : ℚ)
    lod_update_budget_ms := (1.0 : ℚ)
    streaming_budget_ms := (1.5 : ℚ) }

/-- The method `BenchmarkAnalyzer.assess_performance` (source lines 155-206): the list
of assessment lines it prints, built by the same sequence of appends. -/
def assess_performance (analysis : Analysis) (t : Targets) : List String :=
  let assessments : List String := []
  let assessments := assessments ++
    [if analysis.avg_frame_time_ms ≤ t.target_frame_time_ms then
        "✓ Frame time: EXCELLENT"
      else if analysis.avg_frame_time_ms ≤ t.warning_frame_time_ms then
        "⚠ Frame time: ACCEPTABLE"
      else "✗ Frame time: POOR"]
  let assessments := assessments ++
    [if analysis.avg_fps ≥ t.target_fps then "✓ FPS: EXCELLENT"
      else if analysis.avg_fps ≥ t.warning_fps then "⚠ FPS: ACCEPTABLE"
      else "✗ FPS: POOR"]
  let assessments := assessments ++
    [if analysis.gpu_culling_time_ms ≤ t.gpu_culling_budget_ms then
        "✓ GPU Culling: WITHIN BUDGET"
      else "✗ GPU Culling: OVER BUDGET"]
  let assessments := assessments ++
    [if analysis.batch_processing_time_ms ≤ t.batch_processing_budget_ms then
        "✓ Batch Processing: WITHIN BUDGET"
      else "✗ Batch Processing: OVER BUDGET"]
  let assessments := assessments ++
    [if analysis.lod_update_time_ms ≤ t.lod_update_budget_ms then
        "✓ LOD Updates: WITHIN BUDGET"
      else "✗ LOD Updates: OVER BUDGET"]
  let assessments := assessments ++
    [if analysis.streaming_time_ms ≤ t.streaming_budget_ms then
        "✓ Streaming: WITHIN BUDGET"
      else "✗ Streaming: OVER BUDGET"]
  assessments

/-- One printed unit of `generate_report`: either the notice printed when
the collection is empty, or one per-scene block (header data, statistics
and the assessment lines; the numeric formatting inside a block is
abstracted). -/
inductive ReportItem where
  | noResultsNotice
  | sceneBlock (scene : String) (file : String) (analysis : Analysis)
      (assessments : List String)
deriving DecidableEq

/-- The per-scene blocks of `generate_report` (source lines 105-153): one
block per record whose analysis is non-empty, in load order; records with
an empty analysis are skipped by the `continue`. -/
def sceneBlocks (results : List RawResult) : List ReportItem :=
  results.filterMap fun result =>
    (analyze_performance result).map fun analysis =>
      ReportItem.sceneBlock (result.scene.getD "unknown") result.file
        analysis (assess_performance analysis targets)

/-- The method `BenchmarkAnalyzer.generate_report` (source lines 78-153): on an empty
collection it prints "No benchmark results found" and returns early;
otherwise it prints the header followed by the per-scene blocks. -/
def generate_report (results : List RawResult) : List ReportItem :=
  if results = [] then [ReportItem.noResultsNotice]
  else sceneBlocks results

/-- One entry of the `benchmarks` array of the summary (source lines 220-224). -/
structure SummaryEntry where
  scene : String
  file : String
  analysis : Analysis
deriving DecidableEq

/-- The summary document written by `save_summary` (source lines 210-224). -/
structure Summary where
  timestamp : String
  results_dir : String
  benchmark_count : ℕ
  benchmarks : List SummaryEntry
deriving DecidableEq

/-- The summary document `save_summary` builds and serialises
(source lines 208-228): `benchmark_count` is the length of the raw
collection, while `benchmarks` holds one entry per record whose
re-computed analysis is non-empty. -/
def mkSummary (results_dir : String) (timestamp : String)
    (results : List RawResult) : Summary :=
  { timestamp := timestamp
    results_dir := results_dir
    benchmark_count := results.length
    benchmarks :=
      results.filterMap fun result =>
        (analyze_performance result).map fun analysis =>
          ({ scene := result.scene.getD "unknown"
             file := result.file
             analysis := analysis } : SummaryEntry) }

/-- The parse outcome of one file on disk: either a well-formed JSON
object (optional `scene` and `metrics` keys) or malformed JSON whose
parse raises an exception with the given message. -/
inductive FileContent where
  | record (scene : Option String) (metrics : Option RawMetrics)
  | malformed (cause : String)
deriving DecidableEq

/-- One file of the results directory listing. -/
structure DirFile where
  name : String
  content : FileContent
deriving DecidableEq

/-- Whether the first list is a leading segment of the second. -/
def charsMatchHead : List Char → List Char → Bool
  | [], _ => true
  | _ :: _, [] => false
  | p :: ps, c :: cs => p == c && charsMatchHead ps cs

/-- Whether a basename matches the glob pattern `benchmark_*.json`
(source line 22): the name starts with `benchmark_` and ends with
`.json` (the suffix is checked on the reversed character list).  Since
the fixed head and tail of the pattern cannot overlap in a matching
name, the glob match is exactly this conjunction. -/
def matchesPattern (name : String) : Bool :=
  charsMatchHead "benchmark_".toList name.toList &&
  charsMatchHead ".json".toList.reverse name.toList.reverse

/-- The method `BenchmarkAnalyzer.load_results` (source lines 20-32): glob the
directory for `benchmark_*.json`, parse each match, tag it with its
basename, and on a parse failure print an error line naming the full
path and the cause and skip the file.  Returns the loaded records and
the printed error lines, both in listing order. -/
def load_results (results_dir : String) :
    List DirFile → List RawResult × List String
  | [] => ([], [])
  | f :: fs =>
    let rest := load_results results_dir fs
    if matchesPattern f.name then
      match f.content with
      | FileContent.record scene metrics =>
        (({ scene := scene, metrics := metrics, file := f.name } : RawResult)
            :: rest.1, rest.2)
      | FileContent.malformed cause =>
        (rest.1,
          ("Error loading " ++ results_dir ++ "/" ++ f.name ++ ": " ++ cause)
            :: rest.2)
    else rest

/-- What one run of `main` (source lines 232-246) produces on its output
streams: the load-error lines, the printed report, and the summary
document written to `benchmark_summary.json` (written unconditionally:
`save_summary` is called after `generate_report` returns, also when the
collection is empty). -/
structure RunOutcome where
  errors : List String
  report : List ReportItem
  summary : Summary
deriving DecidableEq

/-- The content the written `benchmark_summary.json` file has when it is
itself re-parsed by a later run: valid JSON whose top-level object has
neither a `scene` nor a `metrics` key. -/
def summaryFileContent : FileContent :=
  FileContent.record none none

/-- One run of `main` on a directory listing: load, report, save.  Returns
the output of the run together with the directory listing after it, in
which `benchmark_summary.json` has been overwritten or appended. -/
def runMain (results_dir : String) (timestamp : String)
    (dir : List DirFile) : RunOutcome × List DirFile :=
  let loaded := load_results results_dir dir
  let outcome : RunOutcome :=
    { errors := loaded.2
      report := generate_report loaded.1
      summary := mkSummary results_dir timestamp loaded.1 }
  (outcome,
    dir.filter (fun f => !(f.name == "benchmark_summary.json")) ++
      [{ name := "benchmark_summary.json", content := summaryFileContent }])

/-- A summary with its timestamp field blanked, for comparing summary
contents modulo timestamp. -/
def eraseTimestamp (s : Summary) : Summary :=
  { s with timestamp := "" }

/-! ## Concrete fixtures

Example records and directory listings used as concrete instances of the
theorems below.  `exResult` carries the frame-time sequence
`[10, 12, 14, 16, 18, 20, 22, 24, 26, 28]` used as the hand-computed
percentile example. -/

def exResult : RawResult :=
  { scene := some "city"
    metrics := some { frame_times := some [10, 12, 14, 16, 18, 20, 22, 24, 26, 28] }
    file := "benchmark_city.json" }

/-- A record with a non-empty frame-time list and no other metric keys. -/
def bareResult : RawResult :=
  { scene := none
    metrics := some { frame_times := some [10] }
    file := "benchmark_bare.json" }

/-- A record whose `frame_times` is present but empty. -/
def noFramesResult : RawResult :=
  { scene := some "empty"
    metrics := some { frame_times := some [] }
    file := "benchmark_empty.json" }

/-- A directory entry holding the `exResult` data. -/
def cityFile : DirFile :=
  { name := "benchmark_city.json"
    content := FileContent.record (some "city")
      (some { frame_times := some [10, 12, 14, 16, 18, 20, 22, 24, 26, 28] }) }

/-- A second well-formed directory entry. -/
def forestFile : DirFile :=
  { name := "benchmark_forest.json"
    content := FileContent.record (some "forest") (some { frame_times := some [20] }) }

/-- A directory entry whose JSON fails to parse. -/
def brokenFile : DirFile :=
  { name := "benchmark_broken.json", content := FileContent.malformed "invalid json" }

/-- The record the loader builds from `cityFile`. -/
def cityResult : RawResult :=
  { scene := some "city"
    metrics := some { frame_times := some [10, 12, 14, 16, 18, 20, 22, 24, 26, 28] }
    file := "benchmark_city.json" }

/-- The record the loader builds from `forestFile`. -/
def forestResult : RawResult :=
  { scene := some "forest"
    metrics := some { frame_times := some [20] }
    file := "benchmark_forest.json" }

/-! ## Helper lemmas -/

/-- Unfolding `analyze_performance` in the non-empty case. -/
theorem analyze_performance_eq (r : RawResult) (h : frameTimes r ≠ []) :
    analyze_performance r = some
      { avg_frame_time_ms := (frameTimes r).sum / ((frameTimes r).length : ℚ)
        min_frame_time_ms := listMin (frameTimes r)
        max_frame_time_ms := listMax (frameTimes r)
        p95_frame_time_ms := (List.insertionSort (· ≤ ·) (frameTimes r)).getD
          (percentileIndex (List.insertionSort (· ≤ ·) (frameTimes r)).length (0.95 : ℚ)) 0
        p99_frame_time_ms := (List.insertionSort (· ≤ ·) (frameTimes r)).getD
          (percentileIndex (List.insertionSort (· ≤ ·) (frameTimes r)).length (0.99 : ℚ)) 0
        avg_fps := if (frameTimes r).sum / ((frameTimes r).length : ℚ) > 0 then
            1000 / ((frameTimes r).sum / ((frameTimes r).length : ℚ)) else 0
        min_fps := if listMax (frameTimes r) > 0 then 1000 / listMax (frameTimes r) else 0
        frame_count := (frameTimes r).length
        gpu_culling_time_ms := ((r.metrics.getD {}).gpu_culling_time_ms.getD 0)
        batch_processing_time_ms := ((r.metrics.getD {}).batch_processing_time_ms.getD 0)
        lod_update_time_ms := ((r.metrics.getD {}).lod_update_time_ms.getD 0)
        streaming_time_ms := ((r.metrics.getD {}).streaming_time_ms.getD 0)
        visible_instances := ((r.metrics.getD {}).visible_instances.getD 0)
        culled_instances := ((r.metrics.getD {}).culled_instances.getD 0)
        batch_count := ((r.metrics.getD {}).batch_count.getD 0)
        memory_usage_mb := ((r.metrics.getD {}).memory_usage_mb.getD 0) } := by
  simp only [frameTimes] at h
  simp only [analyze_performance, frameTimes, if_neg h]

/-- The function `analyze_performance` returns the empty dictionary on
empty or absent `frame_times`. -/
theorem analyze_performance_empty (r : RawResult) (h : frameTimes r = []) :
    analyze_performance r = none := by
  simp only [frameTimes] at h
  simp [analyze_performance, frameTimes, h]

theorem foldl_min_le_init (xs : List ℚ) (x : ℚ) : xs.foldl min x ≤ x := by
  induction xs generalizing x with
  | nil => exact le_refl x
  | cons a xs ih =>
    calc (a :: xs).foldl min x = xs.foldl min (min x a) := rfl
    _ ≤ min x a := ih (min x a)
    _ ≤ x := min_le_left x a

theorem foldl_min_le_mem (xs : List ℚ) (x y : ℚ) (hy : y ∈ xs) :
    xs.foldl min x ≤ y := by
  induction xs generalizing x with
  | nil => cases hy
  | cons a xs ih =>
    rcases List.mem_cons.mp hy with rfl | hy2
    · calc (y :: xs).foldl min x = xs.foldl min (min x y) := rfl
      _ ≤ min x y := foldl_min_le_init xs (min x y)
      _ ≤ y := min_le_right x y
    · exact ih (min x a) hy2

theorem foldl_min_mem (xs : List ℚ) (x : ℚ) :
    xs.foldl min x = x ∨ xs.foldl min x ∈ xs := by
  induction xs generalizing x with
  | nil => exact Or.inl rfl
  | cons a xs ih =>
    have step : (a :: xs).foldl min x = xs.foldl min (min x a) := rfl
    rcases ih (min x a) with h1 | h1
    · rcases min_choice x a with h2 | h2
      · exact Or.inl (by rw [step, h1, h2])
      · exact Or.inr (by rw [step, h1, h2]; exact List.mem_cons_self a xs)
    · exact Or.inr (by rw [step]; exact List.mem_cons_of_mem a h1)

theorem listMin_mem (l : List ℚ) (h : l ≠ []) : listMin l ∈ l := by
  match l with
  | [] => exact absurd rfl h
  | x :: xs =>
    rcases foldl_min_mem xs x with h1 | h1
    · rw [listMin, h1]; exact List.mem_cons_self x xs
    · rw [listMin]; exact List.mem_cons_of_mem x h1

theorem listMin_le (l : List ℚ) (y : ℚ) (hy : y ∈ l) : listMin l ≤ y := by
  match l with
  | [] => cases hy
  | x :: xs =>
    rcases List.mem_cons.mp hy with rfl | h1
    · exact foldl_min_le_init xs y
    · exact foldl_min_le_mem xs x y h1

theorem init_le_foldl_max (xs : List ℚ) (x : ℚ) : x ≤ xs.foldl max x := by
  induction xs generalizing x with
  | nil => exact le_refl x
  | cons a xs ih =>
    calc x ≤ max x a := le_max_left x a
    _ ≤ xs.foldl max (max x a) := ih (max x a)
    _ = (a :: xs).foldl max x := rfl

theorem mem_le_foldl_max (xs : List ℚ) (x y : ℚ) (hy : y ∈ xs) :
    y ≤ xs.foldl max x := by
  induction xs generalizing x with
  | nil => cases hy
  | cons a xs ih =>
    rcases List.mem_cons.mp hy with rfl | h2
    · calc y ≤ max x y := le_max_right x y
      _ ≤ xs.foldl max (max x y) := init_le_foldl_max xs (max x y)
      _ = (y :: xs).foldl max x := rfl
    · exact ih (max x a) h2

theorem foldl_max_mem (xs : List ℚ) (x : ℚ) :
    xs.foldl max x = x ∨ xs.foldl max x ∈ xs := by
  induction xs generalizing x with
  | nil => exact Or.inl rfl
  | cons a xs ih =>
    have step : (a :: xs).foldl max x = xs.foldl max (max x a) := rfl
    rcases ih (max x a) with h1 | h1
    · rcases max_choice x a with h2 | h2
      · exact Or.inl (by rw [step, h1, h2])
      · exact Or.inr (by rw [step, h1, h2]; exact List.mem_cons_self a xs)
    · exact Or.inr (by rw [step]; exact List.mem_cons_of_mem a h1)

theorem listMax_mem (l : List ℚ) (h : l ≠ []) : listMax l ∈ l := by
  match l with
  | [] => exact absurd rfl h
  | x :: xs =>
    rcases foldl_max_mem xs x with h1 | h1
    · rw [listMax, h1]; exact List.mem_cons_self x xs
    · rw [listMax]; exact List.mem_cons_of_mem x h1

theorem le_listMax (l : List ℚ) (y : ℚ) (hy : y ∈ l) : y ≤ listMax l := by
  match l with
  | [] => cases hy
  | x :: xs =>
    rcases List.mem_cons.mp hy with rfl | h1
    · exact init_le_foldl_max xs y
    · exact mem_le_foldl_max xs x y h1

theorem headD_mem (l : List ℚ) (d : ℚ) (h : l ≠ []) : l.headD d ∈ l := by
  match l with
  | [] => exact absurd rfl h
  | a :: t => exact List.mem_cons_self a t

theorem getLastD_mem (l : List ℚ) (d : ℚ) (h : l ≠ []) : l.getLastD d ∈ l := by
  induction l generalizing d with
  | nil => exact absurd rfl h
  | cons a t ih =>
    match t with
    | [] => exact List.mem_cons_self a []
    | b :: u =>
      have step : (a :: b :: u).getLastD d = (b :: u).getLastD a := rfl
      rw [step]
      exact List.mem_cons_of_mem a (ih a (by simp))

theorem le_getLastD_of_sorted (l : List ℚ) (hs : l.Sorted (· ≤ ·)) (d y : ℚ)
    (hy : y ∈ l) : y ≤ l.getLastD d := by
  induction l generalizing d with
  | nil => cases hy
  | cons a t ih =>
    rw [List.getLastD_cons d a t]
    rcases List.mem_cons.mp hy with rfl | h1
    · match t with
      | [] => exact le_refl y
      | b :: u =>
        have hmem := getLastD_mem (b :: u) y (by simp)
        exact (List.sorted_cons.mp hs).1 _ hmem
    · exact ih (List.sorted_cons.mp hs).2 a h1

theorem headD_le_of_sorted (l : List ℚ) (hs : l.Sorted (· ≤ ·)) (d y : ℚ)
    (hy : y ∈ l) : l.headD d ≤ y := by
  match l with
  | [] => cases hy
  | a :: t =>
    rcases List.mem_cons.mp hy with rfl | h1
    · exact le_refl y
    · exact (List.sorted_cons.mp hs).1 y h1

theorem percentileIndex_lt (n : ℕ) (hn : 0 < n) (p : ℚ) (hp0 : 0 ≤ p)
    (hp1 : p < 1) : percentileIndex n p < n := by
  rw [percentileIndex]
  rw [Nat.floor_lt (mul_nonneg (by positivity) hp0)]
  calc (n : ℚ) * p < (n : ℚ) * 1 := by
        apply mul_lt_mul_of_pos_left hp1
        exact_mod_cast hn
  _ = (n : ℚ) := mul_one _

theorem percentileIndex_mono (n : ℕ) (p q : ℚ) (hpq : p ≤ q) :
    percentileIndex n p ≤ percentileIndex n q := by
  apply Nat.floor_le_floor
  apply mul_le_mul_of_nonneg_left hpq
  positivity

/-- Python `int(n * 0.95)` is the integer division `19 * n / 20`. -/
theorem percentileIndex95 (n : ℕ) : percentileIndex n (0.95 : ℚ) = 19 * n / 20 := by
  have h : (n : ℚ) * (0.95 : ℚ) = ((19 * n : ℕ) : ℚ) / ((20 : ℕ) : ℚ) := by
    push_cast; ring
  rw [percentileIndex, h, Nat.floor_div_nat, Nat.floor_natCast]

/-- Python `int(n * 0.99)` is the integer division `99 * n / 100`. -/
theorem percentileIndex99 (n : ℕ) : percentileIndex n (0.99 : ℚ) = 99 * n / 100 := by
  have h : (n : ℚ) * (0.99 : ℚ) = ((99 * n : ℕ) : ℚ) / ((100 : ℕ) : ℚ) := by
    push_cast; ring
  rw [percentileIndex, h, Nat.floor_div_nat, Nat.floor_natCast]

/-- Python `min(frame_times)` is the first element of the ascending sort. -/
theorem listMin_eq_sorted_headD (l : List ℚ) (h : l ≠ []) :
    listMin l = (List.insertionSort (· ≤ ·) l).headD 0 := by
  have hperm := List.perm_insertionSort (· ≤ ·) l
  have hne : List.insertionSort (· ≤ ·) l ≠ [] := by
    intro hnil
    exact h ((hnil ▸ hperm).symm.eq_nil)
  have hsorted := List.sorted_insertionSort (· ≤ ·) l
  apply le_antisymm
  · exact listMin_le l _ (hperm.mem_iff.mp (headD_mem _ 0 hne))
  · exact headD_le_of_sorted _ hsorted 0 _ (hperm.mem_iff.mpr (listMin_mem l h))

/-- Python `max(frame_times)` is the last element of the ascending sort. -/
theorem listMax_eq_sorted_getLastD (l : List ℚ) (h : l ≠ []) :
    listMax l = (List.insertionSort (· ≤ ·) l).getLastD 0 := by
  have hperm := List.perm_insertionSort (· ≤ ·) l
  have hne : List.insertionSort (· ≤ ·) l ≠ [] := by
    intro hnil
    exact h ((hnil ▸ hperm).symm.eq_nil)
  have hsorted := List.sorted_insertionSort (· ≤ ·) l
  apply le_antisymm
  · exact le_getLastD_of_sorted _ hsorted 0 _ (hperm.mem_iff.mpr (listMax_mem l h))
  · exact le_listMax l _ (hperm.mem_iff.mp (getLastD_mem _ 0 hne))

/-- The name of the written summary file itself matches the input glob
pattern `benchmark_*.json`. -/
theorem matchesPattern_summary : matchesPattern "benchmark_summary.json" = true := rfl

/-- Re-loading the written summary file yields a record with no `scene`
and no `metrics` key, whose analysis is empty. -/
theorem analyze_summary_record_none :
    analyze_performance
      { scene := none, metrics := none, file := "benchmark_summary.json" } = none := rfl

theorem length_filterMap_eq_length_filter {α β : Type} (f : α → Option β)
    (l : List α) : (l.filterMap f).length = (l.filter (fun a => (f a).isSome)).length := by
  induction l with
  | nil => rfl
  | cons a l ih =>
    rw [List.filterMap_cons, List.filter_cons]
    cases hfa : f a with
    | none => simpa [hfa] using ih
    | some b => simpa [hfa] using ih

/-- Loading a concatenation of listings concatenates the loaded records
and the error lines. -/
theorem load_results_append (dp : String) (xs ys : List DirFile) :
    load_results dp (xs ++ ys) =
      ((load_results dp xs).1 ++ (load_results dp ys).1,
       (load_results dp xs).2 ++ (load_results dp ys).2) := by
  induction xs with
  | nil => simp [load_results]
  | cons f fs ih =>
    rw [List.cons_append]
    simp only [load_results]
    rw [ih]
    cases f.content <;> by_cases hm : matchesPattern f.name <;> simp [hm]

/-! ## Claims -/

/-- Claim C1: for every record with a non-empty frame-time sequence of
length N, `analyze_performance` computes `p95_frame_time_ms` as the
ascending-sorted sequence at index `floor(0.95 * N)` and
`p99_frame_time_ms` at index `floor(0.99 * N)`. -/
theorem analyze_percentiles_spec (r : RawResult) (h : frameTimes r ≠ []) :
    ∃ a, analyze_performance r = some a ∧
      a.p95_frame_time_ms = (List.insertionSort (· ≤ ·) (frameTimes r)).getD
        (Nat.floor (((frameTimes r).length : ℚ) * (0.95 : ℚ))) 0 ∧
      a.p99_frame_time_ms = (List.insertionSort (· ≤ ·) (frameTimes r)).getD
        (Nat.floor (((frameTimes r).length : ℚ) * (0.99 : ℚ))) 0 := by
  refine ⟨_, analyze_performance_eq r h, ?_, ?_⟩ <;>
    simp only [percentileIndex, List.length_insertionSort]

/-- Claim C1 witness: on the frame times
`[10, 12, 14, 16, 18, 20, 22, 24, 26, 28]` (N = 10) both p95 and p99
equal 28. -/
theorem analyze_percentiles_spec_witness :
    frameTimes exResult = [10, 12, 14, 16, 18, 20, 22, 24, 26, 28] ∧
    (analyze_performance exResult).map Analysis.p95_frame_time_ms = some 28 ∧
    (analyze_performance exResult).map Analysis.p99_frame_time_ms = some 28 := by
  have hft : frameTimes exResult = [10, 12, 14, 16, 18, 20, 22, 24, 26, 28] := by
    simp [frameTimes, exResult]
  have h : frameTimes exResult ≠ [] := by rw [hft]; simp
  obtain ⟨a, ha, h95, h99⟩ := analyze_percentiles_spec exResult h
  refine ⟨hft, ?_, ?_⟩
  · rw [ha, Option.map_some', Option.some_inj, h95, hft]
    rw [show Nat.floor ((([10, 12, 14, 16, 18, 20, 22, 24, 26, 28] : List ℚ).length : ℚ) *
        (0.95 : ℚ)) = percentileIndex ([10, 12, 14, 16, 18, 20, 22, 24, 26, 28] : List ℚ).length
        (0.95 : ℚ) from rfl, percentileIndex95]
    norm_num [List.insertionSort, List.orderedInsert, List.getD]
  · rw [ha, Option.map_some', Option.some_inj, h99, hft]
    rw [show Nat.floor ((([10, 12, 14, 16, 18, 20, 22, 24, 26, 28] : List ℚ).length : ℚ) *
        (0.99 : ℚ)) = percentileIndex ([10, 12, 14, 16, 18, 20, 22, 24, 26, 28] : List ℚ).length
        (0.99 : ℚ) from rfl, percentileIndex99]
    norm_num [List.insertionSort, List.orderedInsert, List.getD]

/-- Claim C2 counterexample: running the tool twice in succession on the
same directory (initially empty) does NOT give the same summary modulo
timestamp — the first run writes `benchmark_summary.json` into the
directory, the file matches the input glob, and the second run counts it
as a benchmark, so `benchmark_count` goes from 0 to 1. -/
theorem second_run_summary_differs :
    eraseTimestamp ((runMain "results" "t1" []).1.summary) ≠
      eraseTimestamp ((runMain "results" "t2" ((runMain "results" "t1" []).2)).1.summary) := by
  intro hEq
  have h1 : (eraseTimestamp ((runMain "results" "t1" []).1.summary)).benchmark_count = 0 := rfl
  have h2 : (eraseTimestamp ((runMain "results" "t2"
      ((runMain "results" "t1" []).2)).1.summary)).benchmark_count = 1 := rfl
  rw [hEq] at h1
  exact Nat.zero_ne_one (h1.symm.trans h2)

/-- Claim C2 amended: if the input directory has no file named
`benchmark_summary.json`, the summary of a second run equals the summary
of the first except for the timestamp and for `benchmark_count`, which
grows by exactly one (the written summary file, re-loaded as a record
with empty analysis); the `benchmarks` sequence is unchanged. -/
theorem second_run_summary_amended (dp t1 t2 : String) (d0 : List DirFile)
    (h : ∀ f ∈ d0, f.name ≠ "benchmark_summary.json") :
    (runMain dp t2 ((runMain dp t1 d0).2)).1.summary =
      { timestamp := t2
        results_dir := dp
        benchmark_count := (runMain dp t1 d0).1.summary.benchmark_count + 1
        benchmarks := (runMain dp t1 d0).1.summary.benchmarks } := by
  have hfilter : d0.filter (fun f : DirFile => !(f.name == "benchmark_summary.json")) = d0 := by
    apply List.filter_eq_self.mpr
    intro f hf
    simpa using h f hf
  have hd1 : (runMain dp t1 d0).2 =
      d0 ++ [({ name := "benchmark_summary.json", content := summaryFileContent } : DirFile)] := by
    show d0.filter (fun f : DirFile => !(f.name == "benchmark_summary.json")) ++ _ = _
    rw [hfilter]
  have hsum : load_results dp
      [({ name := "benchmark_summary.json", content := summaryFileContent } : DirFile)] =
      ([({ scene := none, metrics := none, file := "benchmark_summary.json" } : RawResult)], []) := by
    simp [load_results, summaryFileContent, matchesPattern_summary]
  show mkSummary dp t2 (load_results dp ((runMain dp t1 d0).2)).1 = _
  rw [hd1, load_results_append, hsum]
  show mkSummary dp t2 ((load_results dp d0).1 ++
    [({ scene := none, metrics := none, file := "benchmark_summary.json" } : RawResult)]) = _
  simp [mkSummary, List.filterMap_append, List.filterMap_cons, analyze_summary_record_none]
  exact ⟨rfl, rfl⟩

/-- Claim C2 amended witness: a directory with one benchmark file. -/
theorem second_run_summary_amended_witness :
    (∀ f ∈ [cityFile], f.name ≠ "benchmark_summary.json") ∧
    (runMain "results" "t2" ((runMain "results" "t1" [cityFile]).2)).1.summary =
      { timestamp := "t2"
        results_dir := "results"
        benchmark_count := (runMain "results" "t1" [cityFile]).1.summary.benchmark_count + 1
        benchmarks := (runMain "results" "t1" [cityFile]).1.summary.benchmarks } :=
  have h : ∀ f ∈ [cityFile], f.name ≠ "benchmark_summary.json" := by
    intro f hf
    rcases List.mem_singleton.mp hf with rfl
    simp [cityFile]
  ⟨h, second_run_summary_amended "results" "t1" "t2" [cityFile] h⟩

/-- Claim C3 counterexample: on an empty record collection the report
prints exactly the no-results notice, yet the load→report→save sequence
of `main` still writes `benchmark_summary.json` (with count 0), because
`save_summary` is called unconditionally after `generate_report`
returns. -/
theorem empty_run_still_writes_summary :
    (load_results "results" []).1 = [] ∧
    (runMain "results" "t" []).1.report = [ReportItem.noResultsNotice] ∧
    ((runMain "results" "t" []).2.map DirFile.name) = ["benchmark_summary.json"] ∧
    (runMain "results" "t" []).1.summary =
      { timestamp := "t", results_dir := "results", benchmark_count := 0, benchmarks := [] } :=
  ⟨rfl, rfl, rfl, rfl⟩

/-- Claim C3 amended: when the loaded collection is empty the report is
exactly the no-results notice (no per-scene blocks), and the save step
still writes a summary file with `benchmark_count` 0 and an empty
`benchmarks` sequence. -/
theorem empty_results_report_notice (dp ts : String) (dir : List DirFile)
    (h : (load_results dp dir).1 = []) :
    (runMain dp ts dir).1.report = [ReportItem.noResultsNotice] ∧
    (runMain dp ts dir).1.summary =
      { timestamp := ts, results_dir := dp, benchmark_count := 0, benchmarks := [] } ∧
    "benchmark_summary.json" ∈ ((runMain dp ts dir).2.map DirFile.name) := by
  refine ⟨?_, ?_, ?_⟩
  · show generate_report (load_results dp dir).1 = _
    rw [h]
    rfl
  · show mkSummary dp ts (load_results dp dir).1 = _
    rw [h]
    rfl
  · show "benchmark_summary.json" ∈
      ((dir.filter (fun f : DirFile => !(f.name == "benchmark_summary.json")) ++
        [({ name := "benchmark_summary.json", content := summaryFileContent } : DirFile)]).map
          DirFile.name)
    simp

/-- Claim C3 amended witness: the empty directory. -/
theorem empty_results_report_notice_witness :
    (load_results "results" []).1 = [] ∧
    ((runMain "results" "t" []).1.report = [ReportItem.noResultsNotice] ∧
      (runMain "results" "t" []).1.summary =
        { timestamp := "t", results_dir := "results", benchmark_count := 0, benchmarks := [] } ∧
      "benchmark_summary.json" ∈ ((runMain "results" "t" []).2.map DirFile.name)) :=
  ⟨rfl, empty_results_report_notice "results" "t" [] rfl⟩

/-- Claim C4: for every record with non-empty frame times, `avg_fps` is
1000 divided by the average frame time when that average is positive and
0 otherwise, and `min_fps` is 1000 divided by the maximum frame time when
that maximum is positive and 0 otherwise; both divisions are guarded, so
neither can divide by zero. -/
theorem analyze_fps_guarded (r : RawResult) (h : frameTimes r ≠ []) :
    ∃ a, analyze_performance r = some a ∧
      a.avg_fps = (if a.avg_frame_time_ms > 0 then 1000 / a.avg_frame_time_ms else 0) ∧
      a.min_fps = (if a.max_frame_time_ms > 0 then 1000 / a.max_frame_time_ms else 0) :=
  ⟨_, analyze_performance_eq r h, rfl, rfl⟩

/-- Claim C4 witness: on the example record the average frame time is 19,
so `avg_fps = 1000/19`; the maximum is 28, so `min_fps = 1000/28 = 250/7`. -/
theorem analyze_fps_guarded_witness :
    frameTimes exResult ≠ [] ∧
    (analyze_performance exResult).map Analysis.avg_fps = some (1000 / 19) ∧
    (analyze_performance exResult).map Analysis.min_fps = some (250 / 7) := by
  have h : frameTimes exResult ≠ [] := by simp [frameTimes, exResult]
  obtain ⟨a, ha, havg, hmin⟩ := analyze_fps_guarded exResult h
  have hft : frameTimes exResult = [10, 12, 14, 16, 18, 20, 22, 24, 26, 28] := by
    simp [frameTimes, exResult]
  have ha2 := analyze_performance_eq exResult h
  rw [ha] at ha2
  have haf : a.avg_frame_time_ms = 19 := by
    rw [Option.some_inj] at ha2
    rw [ha2]
    show (frameTimes exResult).sum / ((frameTimes exResult).length : ℚ) = 19
    rw [hft]
    norm_num
  have hmax : a.max_frame_time_ms = 28 := by
    rw [Option.some_inj] at ha2
    rw [ha2]
    show listMax (frameTimes exResult) = 28
    rw [hft]
    norm_num [listMax, max_def]
  refine ⟨h, ?_, ?_⟩
  · rw [ha, Option.map_some', Option.some_inj, havg, haf]
    norm_num
  · rw [ha, Option.map_some', Option.some_inj, hmin, hmax]
    norm_num

/-- Claim C5: a record whose `frame_times` is empty or absent yields an
empty analysis, contributes no entry to the `benchmarks` sequence of the
summary, and produces no report block — all without any error (the
functions are total). -/
theorem empty_frame_times_skipped (r : RawResult) (h : frameTimes r = [])
    (rs1 rs2 : List RawResult) (dp ts : String) :
    analyze_performance r = none ∧
    (mkSummary dp ts (rs1 ++ r :: rs2)).benchmarks = (mkSummary dp ts (rs1 ++ rs2)).benchmarks ∧
    sceneBlocks (rs1 ++ r :: rs2) = sceneBlocks (rs1 ++ rs2) := by
  have hnone := analyze_performance_empty r h
  refine ⟨hnone, ?_, ?_⟩
  · simp [mkSummary, List.filterMap_append, List.filterMap_cons, hnone]
  · simp [sceneBlocks, List.filterMap_append, List.filterMap_cons, hnone]

/-- Claim C5 witness: a record with `frame_times = []` next to a normal
record. -/
theorem empty_frame_times_skipped_witness :
    frameTimes noFramesResult = [] ∧
    analyze_performance noFramesResult = none ∧
    (mkSummary "results" "t" ([] ++ noFramesResult :: [exResult])).benchmarks =
      (mkSummary "results" "t" ([] ++ [exResult])).benchmarks ∧
    sceneBlocks ([] ++ noFramesResult :: [exResult]) = sceneBlocks ([] ++ [exResult]) := by
  have h : frameTimes noFramesResult = [] := by simp [frameTimes, noFramesResult]
  obtain ⟨h1, h2, h3⟩ := empty_frame_times_skipped noFramesResult h [] [exResult] "results" "t"
  exact ⟨h, h1, h2, h3⟩

/-- Claim C6: for every record with non-empty frame times,
`min_frame_time_ms` is the first element of the ascending sort,
`max_frame_time_ms` is its last element, and
`min ≤ p95 ≤ p99 ≤ max`. -/
theorem analyze_min_max_percentile_order (r : RawResult) (h : frameTimes r ≠ []) :
    ∃ a, analyze_performance r = some a ∧
      a.min_frame_time_ms = (List.insertionSort (· ≤ ·) (frameTimes r)).headD 0 ∧
      a.max_frame_time_ms = (List.insertionSort (· ≤ ·) (frameTimes r)).getLastD 0 ∧
      a.min_frame_time_ms ≤ a.p95_frame_time_ms ∧
      a.p95_frame_time_ms ≤ a.p99_frame_time_ms ∧
      a.p99_frame_time_ms ≤ a.max_frame_time_ms := by
  have hperm := List.perm_insertionSort (· ≤ ·) (frameTimes r)
  have hsorted := List.sorted_insertionSort (· ≤ ·) (frameTimes r)
  have hn : 0 < (List.insertionSort (· ≤ ·) (frameTimes r)).length := by
    rw [List.length_insertionSort]
    exact List.length_pos.mpr h
  have hi95 : percentileIndex (List.insertionSort (· ≤ ·) (frameTimes r)).length (0.95 : ℚ) <
      (List.insertionSort (· ≤ ·) (frameTimes r)).length :=
    percentileIndex_lt _ hn _ (by norm_num) (by norm_num)
  have hi99 : percentileIndex (List.insertionSort (· ≤ ·) (frameTimes r)).length (0.99 : ℚ) <
      (List.insertionSort (· ≤ ·) (frameTimes r)).length :=
    percentileIndex_lt _ hn _ (by norm_num) (by norm_num)
  have h9599 : percentileIndex (List.insertionSort (· ≤ ·) (frameTimes r)).length (0.95 : ℚ) ≤
      percentileIndex (List.insertionSort (· ≤ ·) (frameTimes r)).length (0.99 : ℚ) :=
    percentileIndex_mono _ _ _ (by norm_num)
  refine ⟨_, analyze_performance_eq r h, ?_, ?_, ?_, ?_, ?_⟩
  · exact listMin_eq_sorted_headD _ h
  · exact listMax_eq_sorted_getLastD _ h
  · show listMin (frameTimes r) ≤ (List.insertionSort (· ≤ ·) (frameTimes r)).getD _ 0
    rw [List.getD_eq_getElem _ _ hi95]
    exact listMin_le _ _ (hperm.mem_iff.mp (List.getElem_mem hi95))
  · show (List.insertionSort (· ≤ ·) (frameTimes r)).getD _ 0 ≤
      (List.insertionSort (· ≤ ·) (frameTimes r)).getD _ 0
    rw [List.getD_eq_getElem _ _ hi95, List.getD_eq_getElem _ _ hi99]
    have := hsorted.rel_get_of_le (a := ⟨_, hi95⟩) (b := ⟨_, hi99⟩) h9599
    simpa [List.get_eq_getElem] using this
  · show (List.insertionSort (· ≤ ·) (frameTimes r)).getD _ 0 ≤ listMax (frameTimes r)
    rw [List.getD_eq_getElem _ _ hi99]
    exact le_listMax _ _ (hperm.mem_iff.mp (List.getElem_mem hi99))

/-- Claim C6 witness: the example record. -/
theorem analyze_min_max_percentile_order_witness :
    frameTimes exResult ≠ [] ∧
    ∃ a, analyze_performance exResult = some a ∧
      a.min_frame_time_ms = (List.insertionSort (· ≤ ·) (frameTimes exResult)).headD 0 ∧
      a.max_frame_time_ms = (List.insertionSort (· ≤ ·) (frameTimes exResult)).getLastD 0 ∧
      a.min_frame_time_ms ≤ a.p95_frame_time_ms ∧
      a.p95_frame_time_ms ≤ a.p99_frame_time_ms ∧
      a.p99_frame_time_ms ≤ a.max_frame_time_ms :=
  have h : frameTimes exResult ≠ [] := by simp [frameTimes, exResult]
  ⟨h, analyze_min_max_percentile_order exResult h⟩

/-- Claim C7: for every analysis record the assessment emits exactly six
outcomes in the fixed order frame time, FPS, GPU culling, batch
processing, LOD updates, streaming; the frame-time check is excellent at
avg ≤ 16.67 ms, acceptable at avg ≤ 33.33 ms, else poor; the FPS check
is excellent at avg_fps ≥ 60, acceptable at ≥ 30, else poor; the four
subsystem checks are within budget exactly at ≤ 0.25, 2.5, 1.0 and
1.5 ms respectively. -/
theorem assess_performance_six_checks (a : Analysis) :
    assess_performance a targets = [
      if a.avg_frame_time_ms ≤ (16.67 : ℚ) then "✓ Frame time: EXCELLENT"
      else if a.avg_frame_time_ms ≤ (33.33 : ℚ) then "⚠ Frame time: ACCEPTABLE"
      else "✗ Frame time: POOR",
      if a.avg_fps ≥ (60 : ℚ) then "✓ FPS: EXCELLENT"
      else if a.avg_fps ≥ (30 : ℚ) then "⚠ FPS: ACCEPTABLE"
      else "✗ FPS: POOR",
      if a.gpu_culling_time_ms ≤ (0.25 : ℚ) then "✓ GPU Culling: WITHIN BUDGET"
      else "✗ GPU Culling: OVER BUDGET",
      if a.batch_processing_time_ms ≤ (2.5 : ℚ) then "✓ Batch Processing: WITHIN BUDGET"
      else "✗ Batch Processing: OVER BUDGET",
      if a.lod_update_time_ms ≤ (1.0 : ℚ) then "✓ LOD Updates: WITHIN BUDGET"
      else "✗ LOD Updates: OVER BUDGET",
      if a.streaming_time_ms ≤ (1.5 : ℚ) then "✓ Streaming: WITHIN BUDGET"
      else "✗ Streaming: OVER BUDGET"] ∧
    (assess_performance a targets).length = 6 := by
  constructor
  · rfl
  · simp [assess_performance]

/-- Claim C8: with exactly three matching files of which one is
malformed and the other two are well-formed records with non-empty frame
times, the run logs exactly one error line naming the path and the
cause, loads exactly the two valid records, prints report blocks for
exactly those two records, and completes with a summary counting 2. -/
theorem one_malformed_of_three_files (dp ts n1 n2 bn cause : String)
    (s1 s2 : Option String) (m1 m2 : RawMetrics) (pre post : List DirFile)
    (hsplit : pre ++ post =
      [{ name := n1, content := FileContent.record s1 (some m1) },
       { name := n2, content := FileContent.record s2 (some m2) }])
    (hp1 : matchesPattern n1 = true) (hp2 : matchesPattern n2 = true)
    (hpb : matchesPattern bn = true)
    (hf1 : m1.frame_times.getD [] ≠ []) (hf2 : m2.frame_times.getD [] ≠ []) :
    ∃ a1 a2,
      analyze_performance { scene := s1, metrics := some m1, file := n1 } = some a1 ∧
      analyze_performance { scene := s2, metrics := some m2, file := n2 } = some a2 ∧
      (runMain dp ts (pre ++ { name := bn, content := FileContent.malformed cause } :: post)).1 =
        { errors := ["Error loading " ++ dp ++ "/" ++ bn ++ ": " ++ cause]
          report := [ReportItem.sceneBlock (s1.getD "unknown") n1 a1 (assess_performance a1 targets),
                     ReportItem.sceneBlock (s2.getD "unknown") n2 a2 (assess_performance a2 targets)]
          summary := { timestamp := ts
                       results_dir := dp
                       benchmark_count := 2
                       benchmarks := [{ scene := s1.getD "unknown", file := n1, analysis := a1 },
                                      { scene := s2.getD "unknown", file := n2, analysis := a2 }] } } := by
  have hfr1 : frameTimes { scene := s1, metrics := some m1, file := n1 } ≠ [] := hf1
  have hfr2 : frameTimes { scene := s2, metrics := some m2, file := n2 } ≠ [] := hf2
  have ha1 := analyze_performance_eq _ hfr1
  have ha2 := analyze_performance_eq _ hfr2
  refine ⟨_, _, ha1, ha2, ?_⟩
  have hload : load_results dp
      (pre ++ { name := bn, content := FileContent.malformed cause } :: post) =
      ([{ scene := s1, metrics := some m1, file := n1 },
        { scene := s2, metrics := some m2, file := n2 }],
       ["Error loading " ++ dp ++ "/" ++ bn ++ ": " ++ cause]) := by
    rcases pre with _ | ⟨x, _ | ⟨y, _ | ⟨z, rest⟩⟩⟩
    · rw [List.nil_append] at hsplit
      subst hsplit
      simp [load_results, hp1, hp2, hpb]
    · obtain ⟨rfl, rfl⟩ : x = ({ name := n1, content := FileContent.record s1 (some m1) } : DirFile) ∧
          post = [{ name := n2, content := FileContent.record s2 (some m2) }] := by
        simpa using hsplit
      simp [load_results, hp1, hp2, hpb]
    · obtain ⟨rfl, rfl, rfl⟩ :
          x = ({ name := n1, content := FileContent.record s1 (some m1) } : DirFile) ∧
          y = ({ name := n2, content := FileContent.record s2 (some m2) } : DirFile) ∧
          post = [] := by
        simpa using hsplit
      simp [load_results, hp1, hp2, hpb]
    · exfalso
      have := congrArg List.length hsplit
      simp at this
  simp only [runMain, hload]
  simp [generate_report, sceneBlocks, List.filterMap_cons, ha1, ha2, mkSummary]

/-- Claim C8 witness: one malformed file between two valid ones. -/
theorem one_malformed_of_three_files_witness :
    ∃ a1 a2,
      analyze_performance cityResult = some a1 ∧
      analyze_performance forestResult = some a2 ∧
      (runMain "results" "t" ([cityFile] ++ brokenFile :: [forestFile])).1 =
        { errors := ["Error loading results/benchmark_broken.json: invalid json"]
          report := [ReportItem.sceneBlock "city" "benchmark_city.json" a1
              (assess_performance a1 targets),
            ReportItem.sceneBlock "forest" "benchmark_forest.json" a2
              (assess_performance a2 targets)]
          summary := { timestamp := "t"
                       results_dir := "results"
                       benchmark_count := 2
                       benchmarks := [{ scene := "city"
                                        file := "benchmark_city.json"
                                        analysis := a1 },
                                      { scene := "forest"
                                        file := "benchmark_forest.json"
                                        analysis := a2 }] } } :=
  one_malformed_of_three_files "results" "t" "benchmark_city.json" "benchmark_forest.json"
    "benchmark_broken.json" "invalid json" (some "city") (some "forest")
    { frame_times := some [10, 12, 14, 16, 18, 20, 22, 24, 26, 28] }
    { frame_times := some [20] } [cityFile] [forestFile] rfl rfl rfl rfl (by simp) (by simp)

/-- Claim C9: for every record with non-empty frame times, each absent
subsystem timing or count key yields 0 in the analysis, with no error. -/
theorem absent_keys_default_zero (r : RawResult) (h : frameTimes r ≠ []) :
    ∃ a, analyze_performance r = some a ∧
      ((r.metrics.getD {}).gpu_culling_time_ms = none → a.gpu_culling_time_ms = 0) ∧
      ((r.metrics.getD {}).batch_processing_time_ms = none → a.batch_processing_time_ms = 0) ∧
      ((r.metrics.getD {}).lod_update_time_ms = none → a.lod_update_time_ms = 0) ∧
      ((r.metrics.getD {}).streaming_time_ms = none → a.streaming_time_ms = 0) ∧
      ((r.metrics.getD {}).visible_instances = none → a.visible_instances = 0) ∧
      ((r.metrics.getD {}).culled_instances = none → a.culled_instances = 0) ∧
      ((r.metrics.getD {}).batch_count = none → a.batch_count = 0) ∧
      ((r.metrics.getD {}).memory_usage_mb = none → a.memory_usage_mb = 0) := by
  refine ⟨_, analyze_performance_eq r h, ?_, ?_, ?_, ?_, ?_, ?_, ?_, ?_⟩ <;>
    · intro hk
      simp only [hk, Option.getD_none]

/-- Claim C9 witness: a record with only frame times set has all eight
subsystem fields equal to zero. -/
theorem absent_keys_default_zero_witness :
    frameTimes bareResult ≠ [] ∧
    ∃ a, analyze_performance bareResult = some a ∧
      a.gpu_culling_time_ms = 0 ∧ a.batch_processing_time_ms = 0 ∧
      a.lod_update_time_ms = 0 ∧ a.streaming_time_ms = 0 ∧
      a.visible_instances = 0 ∧ a.culled_instances = 0 ∧
      a.batch_count = 0 ∧ a.memory_usage_mb = 0 := by
  have h : frameTimes bareResult ≠ [] := by simp [frameTimes, bareResult]
  obtain ⟨a, ha, h1, h2, h3, h4, h5, h6, h7, h8⟩ := absent_keys_default_zero bareResult h
  exact ⟨h, a, ha, h1 rfl, h2 rfl, h3 rfl, h4 rfl, h5 rfl, h6 rfl, h7 rfl, h8 rfl⟩

/-- Claim C10: in every written summary, `benchmark_count` is the number
of loaded raw records (including records with empty analysis) while
`benchmarks` has one entry per record with a non-empty analysis, so the
count can strictly exceed the length of `benchmarks`. -/
theorem benchmark_count_vs_benchmarks (dp ts : String) (results : List RawResult) :
    (mkSummary dp ts results).benchmark_count = results.length ∧
    (mkSummary dp ts results).benchmarks.length =
      (results.filter (fun r => (analyze_performance r).isSome)).length ∧
    ∃ rs : List RawResult, (mkSummary dp ts rs).benchmark_count >
      (mkSummary dp ts rs).benchmarks.length := by
  refine ⟨rfl, ?_, ⟨[{ scene := none, metrics := none, file := "benchmark_a.json" }], ?_⟩⟩
  · show (results.filterMap fun result => (analyze_performance result).map fun analysis =>
        ({ scene := result.scene.getD "unknown", file := result.file,
           analysis := analysis } : SummaryEntry)).length = _
    rw [length_filterMap_eq_length_filter]
    congr 1
    apply List.filter_congr
    intro a _
    cases analyze_performance a <;> simp
  · have hnone : analyze_performance
        { scene := none, metrics := none, file := "benchmark_a.json" } = none := rfl
    simp [mkSummary, List.filterMap_cons, hnone]

end BenchmarkReport
